import Mathlib

/-!
Verification of the LTR303 ambient-light sensor component
(src/components/ltr303/ltr303.h) against its specification.

The register model, the enumerations, the component state and the
configuration setters are embedded directly from the header.  Bit-field
unions are embedded as explicit records with pure decode/encode functions
doing the shift/mask arithmetic of the packed layout.  Machine bytes are
`Nat` values with explicit `% 2^w` where truncation matters.
-/

namespace Ltr303

/-! ## Command register addresses (`enum class CommandRegisters`) -/

def ALS_CTRL : Nat := 0x80

def MEAS_RATE : Nat := 0x85

def PART_ID : Nat := 0x86

def MANU_ID : Nat := 0x87

def CH1_0 : Nat := 0x88

def CH1_1 : Nat := 0x89

def CH0_0 : Nat := 0x8A

def CH0_1 : Nat := 0x8B

def ALS_STATUS : Nat := 0x8C

/-! ## Gain (`enum Gain : uint8_t`)

A C enum with fixed underlying type `uint8_t`: a value of the type is a
plain byte, with six named enumerants. -/

abbrev Gain := Nat

def GAIN_1 : Gain := 0

def GAIN_2 : Gain := 1

def GAIN_4 : Gain := 2

def GAIN_8 : Gain := 3

def GAIN_48 : Gain := 6

def GAIN_96 : Gain := 7

def GAINS_COUNT : Nat := 6

/-- The six named enumerants of `Gain`, in declaration order. -/
def definedGains : List Gain := [GAIN_1, GAIN_2, GAIN_4, GAIN_8, GAIN_48, GAIN_96]

def isDefinedGain (g : Gain) : Bool := definedGains.contains g

/-! ## IntegrationTime (`enum IntegrationTime : uint8_t`) -/

abbrev IntegrationTime := Nat

def INTEGRATION_TIME_100MS : IntegrationTime := 0

def INTEGRATION_TIME_50MS : IntegrationTime := 1

def INTEGRATION_TIME_200MS : IntegrationTime := 2

def INTEGRATION_TIME_400MS : IntegrationTime := 3

def INTEGRATION_TIME_150MS : IntegrationTime := 4

def INTEGRATION_TIME_250MS : IntegrationTime := 5

def INTEGRATION_TIME_300MS : IntegrationTime := 6

def INTEGRATION_TIME_350MS : IntegrationTime := 7

def TIMES_COUNT : Nat := 8

/-- The eight named enumerants of `IntegrationTime`, in declaration order. -/
def definedTimes : List IntegrationTime :=
  [INTEGRATION_TIME_100MS, INTEGRATION_TIME_50MS, INTEGRATION_TIME_200MS,
   INTEGRATION_TIME_400MS, INTEGRATION_TIME_150MS, INTEGRATION_TIME_250MS,
   INTEGRATION_TIME_300MS, INTEGRATION_TIME_350MS]

def isDefinedTime (t : IntegrationTime) : Bool := definedTimes.contains t

/-! ## MeasurementRepeatRate (`enum MeasurementRepeatRate`) -/

abbrev MeasurementRepeatRate := Nat

def REPEAT_RATE_50MS : MeasurementRepeatRate := 0

def REPEAT_RATE_100MS : MeasurementRepeatRate := 1

def REPEAT_RATE_200MS : MeasurementRepeatRate := 2

def REPEAT_RATE_500MS : MeasurementRepeatRate := 3

def REPEAT_RATE_1000MS : MeasurementRepeatRate := 4

def REPEAT_RATE_2000MS : MeasurementRepeatRate := 5

/-! ## Bit-field helpers -/

/-- Numeric value of a single-bit boolean field. -/
def bitVal (b : Bool) : Nat := cond b 1 0

/-- Bit `k` of a byte, as the C bitfield reads it. -/
def bitOf (raw k : Nat) : Bool := raw / 2 ^ k % 2 == 1

/-! ## ControlRegister (ALS_CONTR, 0x80)

Packed layout from the union in ltr303.h:
bit 0 `active_mode`, bit 1 `sw_reset`, bits 2-4 `gain`, bits 5-7 `reserved`. -/

structure ControlRegister where
  active_mode : Bool
  sw_reset : Bool
  gain : Gain
  reserved : Nat
deriving DecidableEq

def ControlRegister.decode (raw : Nat) : ControlRegister :=
  { active_mode := bitOf raw 0
    sw_reset := bitOf raw 1
    gain := raw / 4 % 8
    reserved := raw / 32 % 8 }

def ControlRegister.encode (r : ControlRegister) : Nat :=
  bitVal r.active_mode + 2 * bitVal r.sw_reset + 4 * (r.gain % 8) + 32 * (r.reserved % 8)

/-- A `ControlRegister` built the way the driver builds one: the union is
zero-initialized, then the named fields are assigned, so `reserved` is 0. -/
def ControlRegister.mk0 (a s : Bool) (g : Gain) : ControlRegister :=
  { active_mode := a, sw_reset := s, gain := g, reserved := 0 }

/-! ## MeasurementRateRegister (ALS_MEAS_RATE, 0x85)

bits 0-2 `measurement_repeat_rate`, bits 3-5 `integration_time`,
bit 6 `reserved_6`, bit 7 `reserved_7`. -/

structure MeasurementRateRegister where
  measurement_repeat_rate : MeasurementRepeatRate
  integration_time : IntegrationTime
  reserved_6 : Bool
  reserved_7 : Bool
deriving DecidableEq

def MeasurementRateRegister.decode (raw : Nat) : MeasurementRateRegister :=
  { measurement_repeat_rate := raw % 8
    integration_time := raw / 8 % 8
    reserved_6 := bitOf raw 6
    reserved_7 := bitOf raw 7 }

def MeasurementRateRegister.encode (r : MeasurementRateRegister) : Nat :=
  r.measurement_repeat_rate % 8 + 8 * (r.integration_time % 8) +
    64 * bitVal r.reserved_6 + 128 * bitVal r.reserved_7

/-! ## StatusRegister (ALS_STATUS, 0x8C, read only)

bit 0 `reserved_0`, bit 1 `reserved_1`, bit 2 `new_data`, bit 3 `reserved_3`,
bits 4-6 `gain`, bit 7 `data_invalid`. -/

structure StatusRegister where
  reserved_0 : Bool
  reserved_1 : Bool
  new_data : Bool
  reserved_3 : Bool
  gain : Gain
  data_invalid : Bool
deriving DecidableEq

def StatusRegister.decode (raw : Nat) : StatusRegister :=
  { reserved_0 := bitOf raw 0
    reserved_1 := bitOf raw 1
    new_data := bitOf raw 2
    reserved_3 := bitOf raw 3
    gain := raw / 16 % 8
    data_invalid := bitOf raw 7 }

def StatusRegister.encode (s : StatusRegister) : Nat :=
  bitVal s.reserved_0 + 2 * bitVal s.reserved_1 + 4 * bitVal s.new_data +
    8 * bitVal s.reserved_3 + 16 * (s.gain % 8) + 128 * bitVal s.data_invalid

/-! ## 3-bit wire coding of the enums

A 3-bit bitfield of type `Gain` / `IntegrationTime` stores the low three
bits of the enum value and reads back as the enum value equal to the
stored pattern; no pattern is rejected. -/

def gainFromBits (p : Fin 8) : Gain := p.val

def gainToBits (g : Gain) : Fin 8 := ⟨g % 8, Nat.mod_lt g (by decide)⟩

def timeFromBits (p : Fin 8) : IntegrationTime := p.val

def timeToBits (t : IntegrationTime) : Fin 8 := ⟨t % 8, Nat.mod_lt t (by decide)⟩

/-! ## DataAvail (`enum DataAvail : uint8_t`) -/

inductive DataAvail : Type
  | NO_DATA
  | BAD_DATA
  | DATA_OK
deriving DecidableEq

/-! ## Readings (`struct Readings` inside LTR303Component)

The float `lux` is embedded as a rational. -/

structure Readings where
  ch0 : Nat
  ch1 : Nat
  actual_gain : Gain
  integration_time : IntegrationTime
  lux : ℚ
deriving DecidableEq

/-- Default member initializers of `struct Readings` in ltr303.h. -/
def Readings.init : Readings :=
  { ch0 := 0
    ch1 := 0
    actual_gain := GAIN_1
    integration_time := INTEGRATION_TIME_100MS
    lux := 0 }

/-! ## State machine states (`enum class State : uint8_t`) -/

inductive State : Type
  | NOT_INITIALIZED
  | DELAYED_SETUP
  | IDLE
  | WAITING_FOR_DATA
  | COLLECTING_DATA_AUTO
  | DATA_COLLECTED
  | ADJUSTMENT_IN_PROGRESS
  | READY_TO_PUBLISH
  | KEEP_PUBLISHING
deriving DecidableEq

/-! ## The component (`class LTR303Component`)

A `sensor::Sensor *` pointer is embedded as `Option SensorPtr`; `nullptr`
is `none`. -/

abbrev SensorPtr := Nat

structure LTR303Component where
  state_ : State
  readings_ : Readings
  automatic_mode_enabled_ : Bool
  gain_ : Gain
  integration_time_ : IntegrationTime
  repeat_rate_ : MeasurementRepeatRate
  glass_attenuation_factor_ : ℚ
  infrared_counts_sensor_ : Option SensorPtr
  full_spectrum_counts_sensor_ : Option SensorPtr
  ambient_light_sensor_ : Option SensorPtr
  actual_gain_sensor_ : Option SensorPtr
  actual_integration_time_sensor_ : Option SensorPtr
deriving DecidableEq

/-- The default member initializers of `LTR303Component` in ltr303.h: the
state of a freshly constructed component before any setter or framework
call. -/
def LTR303Component.construct : LTR303Component :=
  { state_ := State.NOT_INITIALIZED
    readings_ := Readings.init
    automatic_mode_enabled_ := true
    gain_ := GAIN_1
    integration_time_ := INTEGRATION_TIME_100MS
    repeat_rate_ := REPEAT_RATE_500MS
    glass_attenuation_factor_ := 1
    infrared_counts_sensor_ := none
    full_spectrum_counts_sensor_ := none
    ambient_light_sensor_ := none
    actual_gain_sensor_ := none
    actual_integration_time_sensor_ := none }

/-! ## Configuration setters (inline bodies in ltr303.h) -/

def set_gain (c : LTR303Component) (gain : Gain) : LTR303Component :=
  { c with gain_ := gain }

def set_integration_time (c : LTR303Component) (time : IntegrationTime) : LTR303Component :=
  { c with integration_time_ := time }

def set_repeat_rate (c : LTR303Component) (rate : MeasurementRepeatRate) : LTR303Component :=
  { c with repeat_rate_ := rate }

def set_glass_attenuation_factor (c : LTR303Component) (factor : ℚ) : LTR303Component :=
  { c with glass_attenuation_factor_ := factor }

def set_enable_automatic_mode (c : LTR303Component) (enable : Bool) : LTR303Component :=
  { c with automatic_mode_enabled_ := enable }

def set_ambient_light_sensor (c : LTR303Component) (s : Option SensorPtr) : LTR303Component :=
  { c with ambient_light_sensor_ := s }

def set_full_spectrum_counts_sensor (c : LTR303Component) (s : Option SensorPtr) : LTR303Component :=
  { c with full_spectrum_counts_sensor_ := s }

def set_infrared_counts_sensor (c : LTR303Component) (s : Option SensorPtr) : LTR303Component :=
  { c with infrared_counts_sensor_ := s }

def set_actual_gain_sensor (c : LTR303Component) (s : Option SensorPtr) : LTR303Component :=
  { c with actual_gain_sensor_ := s }

def set_actual_integration_time_sensor (c : LTR303Component) (s : Option SensorPtr) : LTR303Component :=
  { c with actual_integration_time_sensor_ := s }

/-! ## Device control operations

The bodies of these member functions live in the component's `.cpp`
translation unit, which is not part of the header; they are modelled from
the specification.  The bus is a register file `Nat → Nat`; a single-byte
read appends its address to an access trace. -/

/-- One single-byte bus read: returns the byte at `addr` and the trace
extended with the address accessed. -/
def busRead (bus : Nat → Nat) (addr : Nat) (tr : List Nat) : Nat × List Nat :=
  (bus addr % 256, tr ++ [addr])

/-- Modelled from the spec: the body of `LTR303Component::is_data_ready_`
(declared in ltr303.h line 160).  It reads the StatusRegister; NO_DATA when
new_data = 0; BAD_DATA when new_data = 1 and data_invalid = 1; DATA_OK when
new_data = 1 and data_invalid = 0; when a sample exists it records the gain
the device reports (StatusRegister.gain) as the actual gain.  Returns the
verdict, the updated readings, and the bus access trace. -/
def is_data_ready (bus : Nat → Nat) (data : Readings) :
    DataAvail × Readings × List Nat :=
  let (raw, tr) := busRead bus ALS_STATUS []
  let st := StatusRegister.decode raw
  if st.new_data = false then (DataAvail.NO_DATA, data, tr)
  else
    let d := { data with actual_gain := st.gain }
    if st.data_invalid then (DataAvail.BAD_DATA, d, tr)
    else (DataAvail.DATA_OK, d, tr)

/-- Modelled from the spec: the body of `LTR303Component::read_sensor_data_`
(declared in ltr303.h line 161).  Each 16-bit channel is read as two
sequential single-byte reads, low byte first, combined little-endian:
CH1 (infrared only) from 0x88/0x89 into `ch1`, CH0 (visible + infrared)
from 0x8A/0x8B into `ch0`; `actual_gain` is stamped from the status read
(here passed in as `statusGain`). -/
def read_sensor_data (bus : Nat → Nat) (statusGain : Gain) (data : Readings) :
    Readings × List Nat :=
  let (ch1lo, t1) := busRead bus CH1_0 []
  let (ch1hi, t2) := busRead bus CH1_1 t1
  let (ch0lo, t3) := busRead bus CH0_0 t2
  let (ch0hi, t4) := busRead bus CH0_1 t3
  ({ data with
      ch1 := ch1lo + 256 * ch1hi
      ch0 := ch0lo + 256 * ch0hi
      actual_gain := statusGain }, t4)

/-- Modelled from the spec: address trace of `reset_and_activate` — two
writes of the ControlRegister (sw_reset, then active_mode/gain). -/
def reset_and_activate_trace : List Nat := [ALS_CTRL, ALS_CTRL]

/-- Modelled from the spec: address trace of `configure_gain` — a
read-modify-write of the ControlRegister. -/
def configure_gain_trace : List Nat := [ALS_CTRL, ALS_CTRL]

/-- Modelled from the spec: address trace of `configure_integration_time` —
a read-modify-write of the MeasurementRateRegister. -/
def configure_integration_time_trace : List Nat := [MEAS_RATE, MEAS_RATE]

/-- Modelled from the spec: address trace of the setup identity check —
reads of the part ID and manufacturer ID registers. -/
def identity_check_trace : List Nat := [PART_ID, MANU_ID]

/-- The nine fixed bus addresses of the register model (the values of
`enum class CommandRegisters`). -/
def commandAddresses : List Nat :=
  [ALS_CTRL, MEAS_RATE, PART_ID, MANU_ID, CH1_0, CH1_1, CH0_0, CH0_1, ALS_STATUS]

/-! ## Photometric converter

Modelled from the spec; the body of `apply_lux_calculation_` is in the
missing `.cpp`.  Gain and integration-time multipliers follow the
enumerant names (GAIN_n ↦ n; t ms ↦ t/100 relative to the 100 ms
reference). -/

/-- Numeric gain multiplier of a `Gain` enumerant (GAIN_1 ↦ 1, …,
GAIN_96 ↦ 96); undefined patterns fall back to 1. -/
def gainCoeff (g : Gain) : ℚ :=
  if g = GAIN_1 then 1
  else if g = GAIN_2 then 2
  else if g = GAIN_4 then 4
  else if g = GAIN_8 then 8
  else if g = GAIN_48 then 48
  else if g = GAIN_96 then 96
  else 1

/-- Integration-time duration in milliseconds of an `IntegrationTime`
enumerant; undefined patterns fall back to the 100 ms default. -/
def itimeMs (t : IntegrationTime) : Nat :=
  if t = INTEGRATION_TIME_100MS then 100
  else if t = INTEGRATION_TIME_50MS then 50
  else if t = INTEGRATION_TIME_200MS then 200
  else if t = INTEGRATION_TIME_400MS then 400
  else if t = INTEGRATION_TIME_150MS then 150
  else if t = INTEGRATION_TIME_250MS then 250
  else if t = INTEGRATION_TIME_300MS then 300
  else if t = INTEGRATION_TIME_350MS then 350
  else 100

/-- Integration-time multiplier relative to the 100 ms reference. -/
def timeCoeff (t : IntegrationTime) : ℚ := (itimeMs t : ℚ) / 100

/-- The fixed piecewise-coefficient table of the lux formula: the
saturation channel fraction above which the result is 0, and the ratio
buckets, each an upper fraction bound with its `(a, b)` coefficients
contributing `a * ch0n - b * ch1n`.  The spec fixes the shape of the table
(datasheet constants), not its numeric entries, so the table is a
parameter. -/
structure LuxCoeffs where
  satFrac : ℚ
  buckets : List (ℚ × ℚ × ℚ)

/-- Select the coefficient pair of the first bucket whose upper bound
exceeds the channel fraction; past the last bucket the contribution is 0. -/
def pickBucket : List (ℚ × ℚ × ℚ) → ℚ → ℚ × ℚ
  | [], _ => (0, 0)
  | (bd, a, b) :: rest, f => if f < bd then (a, b) else pickBucket rest f

/-- Modelled from the spec: the body of
`LTR303Component::apply_lux_calculation_` (declared in ltr303.h line 163).
Result is 0 when both channels are 0 or the channel fraction
ch1/(ch0+ch1) exceeds the saturation fraction; otherwise the counts are
normalized by the gain and integration-time multipliers, the bucket's
coefficients are applied, any negative intermediate result is clamped to
0, and the glass attenuation factor is applied. -/
def apply_lux_calculation (C : LuxCoeffs) (gaf : ℚ) (data : Readings) : ℚ :=
  if data.ch0 = 0 ∧ data.ch1 = 0 then 0
  else
    let ch0 : ℚ := (data.ch0 : ℚ)
    let ch1 : ℚ := (data.ch1 : ℚ)
    let frac := ch1 / (ch0 + ch1)
    if C.satFrac < frac then 0
    else
      let norm := gainCoeff data.actual_gain * timeCoeff data.integration_time
      let ab := pickBucket C.buckets frac
      gaf * max 0 (ab.1 * (ch0 / norm) - ab.2 * (ch1 / norm))

/-! ## Adaptive controller

Modelled from the spec; the body of `are_adjustments_required_` is in the
missing `.cpp`. -/

/-- Next higher gain in the defined-enumerant order; GAIN_96 is maximal. -/
def nextGain (g : Gain) : Gain :=
  if g = GAIN_1 then GAIN_2
  else if g = GAIN_2 then GAIN_4
  else if g = GAIN_4 then GAIN_8
  else if g = GAIN_8 then GAIN_48
  else if g = GAIN_48 then GAIN_96
  else GAIN_96

/-- Next lower gain in the defined-enumerant order; GAIN_1 is minimal. -/
def prevGain (g : Gain) : Gain :=
  if g = GAIN_96 then GAIN_48
  else if g = GAIN_48 then GAIN_8
  else if g = GAIN_8 then GAIN_4
  else if g = GAIN_4 then GAIN_2
  else GAIN_1

/-- Next longer integration time in duration order (50 → 100 → 150 → 200 →
250 → 300 → 350 → 400 ms); 400 ms is maximal. -/
def nextTime (t : IntegrationTime) : IntegrationTime :=
  if t = INTEGRATION_TIME_50MS then INTEGRATION_TIME_100MS
  else if t = INTEGRATION_TIME_100MS then INTEGRATION_TIME_150MS
  else if t = INTEGRATION_TIME_150MS then INTEGRATION_TIME_200MS
  else if t = INTEGRATION_TIME_200MS then INTEGRATION_TIME_250MS
  else if t = INTEGRATION_TIME_250MS then INTEGRATION_TIME_300MS
  else if t = INTEGRATION_TIME_300MS then INTEGRATION_TIME_350MS
  else if t = INTEGRATION_TIME_350MS then INTEGRATION_TIME_400MS
  else INTEGRATION_TIME_400MS

/-- Next shorter integration time in duration order; 50 ms is minimal. -/
def prevTime (t : IntegrationTime) : IntegrationTime :=
  if t = INTEGRATION_TIME_400MS then INTEGRATION_TIME_350MS
  else if t = INTEGRATION_TIME_350MS then INTEGRATION_TIME_300MS
  else if t = INTEGRATION_TIME_300MS then INTEGRATION_TIME_250MS
  else if t = INTEGRATION_TIME_250MS then INTEGRATION_TIME_200MS
  else if t = INTEGRATION_TIME_200MS then INTEGRATION_TIME_150MS
  else if t = INTEGRATION_TIME_150MS then INTEGRATION_TIME_100MS
  else INTEGRATION_TIME_50MS

/-- Modelled from the spec: the body of
`LTR303Component::are_adjustments_required_` (declared in ltr303.h line
162), with the low-count and near-saturation thresholds as parameters
(`low < high`).  Active only in automatic mode.  If both channels are
below `low` and gain is not at maximum, raise gain; else if integration
time is not at maximum, raise it; if either channel is at or above `high`
and gain is not at minimum, lower gain; else if integration time is not at
minimum, lower it.  At the exhausted extreme no adjustment is made.
Returns (adjustment needed, new gain, new integration time). -/
def are_adjustments_required (auto : Bool) (low high : Nat) (data : Readings) :
    Bool × Gain × IntegrationTime :=
  if auto = false then (false, data.actual_gain, data.integration_time)
  else if data.ch0 < low ∧ data.ch1 < low then
    if data.actual_gain ≠ GAIN_96 then
      (true, nextGain data.actual_gain, data.integration_time)
    else if data.integration_time ≠ INTEGRATION_TIME_400MS then
      (true, data.actual_gain, nextTime data.integration_time)
    else (false, data.actual_gain, data.integration_time)
  else if high ≤ data.ch0 ∨ high ≤ data.ch1 then
    if data.actual_gain ≠ GAIN_1 then
      (true, prevGain data.actual_gain, data.integration_time)
    else if data.integration_time ≠ INTEGRATION_TIME_50MS then
      (true, data.actual_gain, prevTime data.integration_time)
    else (false, data.actual_gain, data.integration_time)
  else (false, data.actual_gain, data.integration_time)

/-! ## Theorems -/

set_option maxRecDepth 4096

/-- Claim C1: for every 8-bit register byte, decoding it into a
ControlRegister, MeasurementRateRegister, or StatusRegister field record
and re-encoding that record yields the original byte exactly, except
possibly in the bits documented as reserved (ControlRegister bits 5-7,
MeasurementRateRegister bits 6-7, StatusRegister bits 0, 1 and 3): the
non-reserved bits — bits 0-4, bits 0-5, and bit 2 with bits 4-7
respectively — of the re-encoded byte equal those of the original. -/
theorem C1_register_roundtrip :
    ∀ b : Fin 256,
      ControlRegister.encode (ControlRegister.decode b.val) % 32 = b.val % 32 ∧
      MeasurementRateRegister.encode (MeasurementRateRegister.decode b.val) % 64 = b.val % 64 ∧
      StatusRegister.encode (StatusRegister.decode b.val) / 4 % 2 = b.val / 4 % 2 ∧
      StatusRegister.encode (StatusRegister.decode b.val) / 16 = b.val / 16 := by
  decide

/-- Claim C2: decoding a 3-bit wire pattern into a Gain or IntegrationTime
value is total (both decoders are total functions) and reversible: every
pattern round-trips through decode/encode, and every defined enumerant
round-trips through encode/decode.  The undefined Gain patterns are
exactly 4 and 5; each decodes to a value that is not a defined enumerant
(and the two are distinct from each other), while every IntegrationTime
pattern is a defined enumerant. -/
theorem C2_enum_wire_codes :
    (∀ p : Fin 8, gainToBits (gainFromBits p) = p) ∧
    (definedGains.all (fun g => gainFromBits (gainToBits g) == g)) = true ∧
    ((List.range 8).filter (fun p => !(isDefinedGain p))) = [4, 5] ∧
    isDefinedGain (gainFromBits 4) = false ∧
    isDefinedGain (gainFromBits 5) = false ∧
    gainFromBits 4 ≠ gainFromBits 5 ∧
    (∀ p : Fin 8, timeToBits (timeFromBits p) = p) ∧
    (definedTimes.all (fun t => timeFromBits (timeToBits t) == t)) = true ∧
    ((List.range 8).filter (fun p => !(isDefinedTime p))) = [] := by
  decide

/-- Claim C4: encoding a ControlRegister places active_mode at bit 0,
sw_reset at bit 1, the 3-bit gain field at bits 2-4 and the reserved field
at bits 5-7 of a single byte; a record built the way the driver builds one
(zero-initialized union, so reserved = 0) encodes with its reserved bits
zero. -/
theorem C4_control_register_layout :
    ∀ (a s : Bool) (g rsv : Fin 8),
      ControlRegister.encode ⟨a, s, g.val, rsv.val⟩ % 2 = bitVal a ∧
      ControlRegister.encode ⟨a, s, g.val, rsv.val⟩ / 2 % 2 = bitVal s ∧
      ControlRegister.encode ⟨a, s, g.val, rsv.val⟩ / 4 % 8 = g.val ∧
      ControlRegister.encode ⟨a, s, g.val, rsv.val⟩ / 32 = rsv.val ∧
      ControlRegister.encode (ControlRegister.mk0 a s g.val) / 32 = 0 ∧
      ControlRegister.encode ⟨a, s, g.val, rsv.val⟩ < 256 := by
  decide

/-- Claim C9: a freshly constructed LTR303Component, before any setter or
framework call, is in state NOT_INITIALIZED with automatic mode enabled,
gain GAIN_1, integration time 100 ms, repeat rate 500 ms, glass
attenuation factor 1.0, all five sink pointers null, and a readings record
equal to {ch0 = 0, ch1 = 0, actual_gain = GAIN_1, integration_time =
100 ms, lux = 0.0}. -/
theorem C9_initial_component_state :
    LTR303Component.construct.state_ = State.NOT_INITIALIZED ∧
    LTR303Component.construct.automatic_mode_enabled_ = true ∧
    LTR303Component.construct.gain_ = GAIN_1 ∧
    LTR303Component.construct.integration_time_ = INTEGRATION_TIME_100MS ∧
    LTR303Component.construct.repeat_rate_ = REPEAT_RATE_500MS ∧
    LTR303Component.construct.glass_attenuation_factor_ = 1 ∧
    LTR303Component.construct.infrared_counts_sensor_ = none ∧
    LTR303Component.construct.full_spectrum_counts_sensor_ = none ∧
    LTR303Component.construct.ambient_light_sensor_ = none ∧
    LTR303Component.construct.actual_gain_sensor_ = none ∧
    LTR303Component.construct.actual_integration_time_sensor_ = none ∧
    LTR303Component.construct.readings_ =
      { ch0 := 0, ch1 := 0, actual_gain := GAIN_1,
        integration_time := INTEGRATION_TIME_100MS, lux := 0 } :=
  ⟨rfl, rfl, rfl, rfl, rfl, rfl, rfl, rfl, rfl, rfl, rfl, rfl⟩

/-- Claim C10: each configuration setter (set_gain, set_integration_time,
set_repeat_rate, set_glass_attenuation_factor, set_enable_automatic_mode,
and the five sink setters) writes exactly its one target field with the
given value and leaves every other part of the component state — the
state-machine state, the readings record, the other configuration fields,
and the other sink pointers — unchanged.  For each setter the theorem
states the written field and that the tuple of all remaining fields is
unchanged. -/
theorem C10_setters_frame (c : LTR303Component) (g : Gain) (t : IntegrationTime)
    (r : MeasurementRepeatRate) (f : ℚ) (e : Bool) (s1 s2 s3 s4 s5 : Option SensorPtr) :
    ((set_gain c g).gain_ = g ∧
      ((set_gain c g).state_, (set_gain c g).readings_,
        (set_gain c g).automatic_mode_enabled_, (set_gain c g).integration_time_,
        (set_gain c g).repeat_rate_, (set_gain c g).glass_attenuation_factor_,
        (set_gain c g).infrared_counts_sensor_, (set_gain c g).full_spectrum_counts_sensor_,
        (set_gain c g).ambient_light_sensor_, (set_gain c g).actual_gain_sensor_,
        (set_gain c g).actual_integration_time_sensor_) =
      (c.state_, c.readings_, c.automatic_mode_enabled_, c.integration_time_,
        c.repeat_rate_, c.glass_attenuation_factor_, c.infrared_counts_sensor_,
        c.full_spectrum_counts_sensor_, c.ambient_light_sensor_, c.actual_gain_sensor_,
        c.actual_integration_time_sensor_)) ∧
    ((set_integration_time c t).integration_time_ = t ∧
      ((set_integration_time c t).state_, (set_integration_time c t).readings_,
        (set_integration_time c t).automatic_mode_enabled_, (set_integration_time c t).gain_,
        (set_integration_time c t).repeat_rate_,
        (set_integration_time c t).glass_attenuation_factor_,
        (set_integration_time c t).infrared_counts_sensor_,
        (set_integration_time c t).full_spectrum_counts_sensor_,
        (set_integration_time c t).ambient_light_sensor_,
        (set_integration_time c t).actual_gain_sensor_,
        (set_integration_time c t).actual_integration_time_sensor_) =
      (c.state_, c.readings_, c.automatic_mode_enabled_, c.gain_,
        c.repeat_rate_, c.glass_attenuation_factor_, c.infrared_counts_sensor_,
        c.full_spectrum_counts_sensor_, c.ambient_light_sensor_, c.actual_gain_sensor_,
        c.actual_integration_time_sensor_)) ∧
    ((set_repeat_rate c r).repeat_rate_ = r ∧
      ((set_repeat_rate c r).state_, (set_repeat_rate c r).readings_,
        (set_repeat_rate c r).automatic_mode_enabled_, (set_repeat_rate c r).gain_,
        (set_repeat_rate c r).integration_time_,
        (set_repeat_rate c r).glass_attenuation_factor_,
        (set_repeat_rate c r).infrared_counts_sensor_,
        (set_repeat_rate c r).full_spectrum_counts_sensor_,
        (set_repeat_rate c r).ambient_light_sensor_,
        (set_repeat_rate c r).actual_gain_sensor_,
        (set_repeat_rate c r).actual_integration_time_sensor_) =
      (c.state_, c.readings_, c.automatic_mode_enabled_, c.gain_,
        c.integration_time_, c.glass_attenuation_factor_, c.infrared_counts_sensor_,
        c.full_spectrum_counts_sensor_, c.ambient_light_sensor_, c.actual_gain_sensor_,
        c.actual_integration_time_sensor_)) ∧
    ((set_glass_attenuation_factor c f).glass_attenuation_factor_ = f ∧
      ((set_glass_attenuation_factor c f).state_, (set_glass_attenuation_factor c f).readings_,
        (set_glass_attenuation_factor c f).automatic_mode_enabled_,
        (set_glass_attenuation_factor c f).gain_,
        (set_glass_attenuation_factor c f).integration_time_,
        (set_glass_attenuation_factor c f).repeat_rate_,
        (set_glass_attenuation_factor c f).infrared_counts_sensor_,
        (set_glass_attenuation_factor c f).full_spectrum_counts_sensor_,
        (set_glass_attenuation_factor c f).ambient_light_sensor_,
        (set_glass_attenuation_factor c f).actual_gain_sensor_,
        (set_glass_attenuation_factor c f).actual_integration_time_sensor_) =
      (c.state_, c.readings_, c.automatic_mode_enabled_, c.gain_,
        c.integration_time_, c.repeat_rate_, c.infrared_counts_sensor_,
        c.full_spectrum_counts_sensor_, c.ambient_light_sensor_, c.actual_gain_sensor_,
        c.actual_integration_time_sensor_)) ∧
    ((set_enable_automatic_mode c e).automatic_mode_enabled_ = e ∧
      ((set_enable_automatic_mode c e).state_, (set_enable_automatic_mode c e).readings_,
        (set_enable_automatic_mode c e).gain_,
        (set_enable_automatic_mode c e).integration_time_,
        (set_enable_automatic_mode c e).repeat_rate_,
        (set_enable_automatic_mode c e).glass_attenuation_factor_,
        (set_enable_automatic_mode c e).infrared_counts_sensor_,
        (set_enable_automatic_mode c e).full_spectrum_counts_sensor_,
        (set_enable_automatic_mode c e).ambient_light_sensor_,
        (set_enable_automatic_mode c e).actual_gain_sensor_,
        (set_enable_automatic_mode c e).actual_integration_time_sensor_) =
      (c.state_, c.readings_, c.gain_, c.integration_time_,
        c.repeat_rate_, c.glass_attenuation_factor_, c.infrared_counts_sensor_,
        c.full_spectrum_counts_sensor_, c.ambient_light_sensor_, c.actual_gain_sensor_,
        c.actual_integration_time_sensor_)) ∧
    ((set_ambient_light_sensor c s1).ambient_light_sensor_ = s1 ∧
      ((set_ambient_light_sensor c s1).state_, (set_ambient_light_sensor c s1).readings_,
        (set_ambient_light_sensor c s1).automatic_mode_enabled_,
        (set_ambient_light_sensor c s1).gain_,
        (set_ambient_light_sensor c s1).integration_time_,
        (set_ambient_light_sensor c s1).repeat_rate_,
        (set_ambient_light_sensor c s1).glass_attenuation_factor_,
        (set_ambient_light_sensor c s1).infrared_counts_sensor_,
        (set_ambient_light_sensor c s1).full_spectrum_counts_sensor_,
        (set_ambient_light_sensor c s1).actual_gain_sensor_,
        (set_ambient_light_sensor c s1).actual_integration_time_sensor_) =
      (c.state_, c.readings_, c.automatic_mode_enabled_, c.gain_, c.integration_time_,
        c.repeat_rate_, c.glass_attenuation_factor_, c.infrared_counts_sensor_,
        c.full_spectrum_counts_sensor_, c.actual_gain_sensor_,
        c.actual_integration_time_sensor_)) ∧
    ((set_full_spectrum_counts_sensor c s2).full_spectrum_counts_sensor_ = s2 ∧
      ((set_full_spectrum_counts_sensor c s2).state_,
        (set_full_spectrum_counts_sensor c s2).readings_,
        (set_full_spectrum_counts_sensor c s2).automatic_mode_enabled_,
        (set_full_spectrum_counts_sensor c s2).gain_,
        (set_full_spectrum_counts_sensor c s2).integration_time_,
        (set_full_spectrum_counts_sensor c s2).repeat_rate_,
        (set_full_spectrum_counts_sensor c s2).glass_attenuation_factor_,
        (set_full_spectrum_counts_sensor c s2).infrared_counts_sensor_,
        (set_full_spectrum_counts_sensor c s2).ambient_light_sensor_,
        (set_full_spectrum_counts_sensor c s2).actual_gain_sensor_,
        (set_full_spectrum_counts_sensor c s2).actual_integration_time_sensor_) =
      (c.state_, c.readings_, c.automatic_mode_enabled_, c.gain_, c.integration_time_,
        c.repeat_rate_, c.glass_attenuation_factor_, c.infrared_counts_sensor_,
        c.ambient_light_sensor_, c.actual_gain_sensor_,
        c.actual_integration_time_sensor_)) ∧
    ((set_infrared_counts_sensor c s3).infrared_counts_sensor_ = s3 ∧
      ((set_infrared_counts_sensor c s3).state_,
        (set_infrared_counts_sensor c s3).readings_,
        (set_infrared_counts_sensor c s3).automatic_mode_enabled_,
        (set_infrared_counts_sensor c s3).gain_,
        (set_infrared_counts_sensor c s3).integration_time_,
        (set_infrared_counts_sensor c s3).repeat_rate_,
        (set_infrared_counts_sensor c s3).glass_attenuation_factor_,
        (set_infrared_counts_sensor c s3).full_spectrum_counts_sensor_,
        (set_infrared_counts_sensor c s3).ambient_light_sensor_,
        (set_infrared_counts_sensor c s3).actual_gain_sensor_,
        (set_infrared_counts_sensor c s3).actual_integration_time_sensor_) =
      (c.state_, c.readings_, c.automatic_mode_enabled_, c.gain_, c.integration_time_,
        c.repeat_rate_, c.glass_attenuation_factor_, c.full_spectrum_counts_sensor_,
        c.ambient_light_sensor_, c.actual_gain_sensor_,
        c.actual_integration_time_sensor_)) ∧
    ((set_actual_gain_sensor c s4).actual_gain_sensor_ = s4 ∧
      ((set_actual_gain_sensor c s4).state_, (set_actual_gain_sensor c s4).readings_,
        (set_actual_gain_sensor c s4).automatic_mode_enabled_,
        (set_actual_gain_sensor c s4).gain_,
        (set_actual_gain_sensor c s4).integration_time_,
        (set_actual_gain_sensor c s4).repeat_rate_,
        (set_actual_gain_sensor c s4).glass_attenuation_factor_,
        (set_actual_gain_sensor c s4).infrared_counts_sensor_,
        (set_actual_gain_sensor c s4).full_spectrum_counts_sensor_,
        (set_actual_gain_sensor c s4).ambient_light_sensor_,
        (set_actual_gain_sensor c s4).actual_integration_time_sensor_) =
      (c.state_, c.readings_, c.automatic_mode_enabled_, c.gain_, c.integration_time_,
        c.repeat_rate_, c.glass_attenuation_factor_, c.infrared_counts_sensor_,
        c.full_spectrum_counts_sensor_, c.ambient_light_sensor_,
        c.actual_integration_time_sensor_)) ∧
    ((set_actual_integration_time_sensor c s5).actual_integration_time_sensor_ = s5 ∧
      ((set_actual_integration_time_sensor c s5).state_,
        (set_actual_integration_time_sensor c s5).readings_,
        (set_actual_integration_time_sensor c s5).automatic_mode_enabled_,
        (set_actual_integration_time_sensor c s5).gain_,
        (set_actual_integration_time_sensor c s5).integration_time_,
        (set_actual_integration_time_sensor c s5).repeat_rate_,
        (set_actual_integration_time_sensor c s5).glass_attenuation_factor_,
        (set_actual_integration_time_sensor c s5).infrared_counts_sensor_,
        (set_actual_integration_time_sensor c s5).full_spectrum_counts_sensor_,
        (set_actual_integration_time_sensor c s5).ambient_light_sensor_,
        (set_actual_integration_time_sensor c s5).actual_gain_sensor_) =
      (c.state_, c.readings_, c.automatic_mode_enabled_, c.gain_, c.integration_time_,
        c.repeat_rate_, c.glass_attenuation_factor_, c.infrared_counts_sensor_,
        c.full_spectrum_counts_sensor_, c.ambient_light_sensor_,
        c.actual_gain_sensor_)) :=
  ⟨⟨rfl, rfl⟩, ⟨rfl, rfl⟩, ⟨rfl, rfl⟩, ⟨rfl, rfl⟩, ⟨rfl, rfl⟩,
    ⟨rfl, rfl⟩, ⟨rfl, rfl⟩, ⟨rfl, rfl⟩, ⟨rfl, rfl⟩, ⟨rfl, rfl⟩⟩

/-- Claim C3: for every status byte, is_data_ready returns NO_DATA exactly
when the new_data bit (bit 2) is 0, BAD_DATA exactly when new_data = 1 and
the data_invalid bit (bit 7) is 1, and DATA_OK exactly when new_data = 1
and data_invalid = 0; in the latter two cases it records the gain the
device reports in status bits 4-6 as the actual gain of the sample
(leaving the other readings fields unchanged), and with no new data the
readings are untouched. -/
theorem C3_is_data_ready_cases (bus : Nat → Nat) (data : Readings) :
    ((is_data_ready bus data).1 = DataAvail.NO_DATA ↔ bus ALS_STATUS % 256 / 4 % 2 = 0) ∧
    ((is_data_ready bus data).1 = DataAvail.BAD_DATA ↔
      (bus ALS_STATUS % 256 / 4 % 2 = 1 ∧ bus ALS_STATUS % 256 / 128 % 2 = 1)) ∧
    ((is_data_ready bus data).1 = DataAvail.DATA_OK ↔
      (bus ALS_STATUS % 256 / 4 % 2 = 1 ∧ bus ALS_STATUS % 256 / 128 % 2 = 0)) ∧
    (bus ALS_STATUS % 256 / 4 % 2 = 1 →
      ((is_data_ready bus data).2.1.actual_gain = bus ALS_STATUS % 256 / 16 % 8 ∧
        (is_data_ready bus data).2.1.ch0 = data.ch0 ∧
        (is_data_ready bus data).2.1.ch1 = data.ch1 ∧
        (is_data_ready bus data).2.1.integration_time = data.integration_time ∧
        (is_data_ready bus data).2.1.lux = data.lux)) ∧
    (bus ALS_STATUS % 256 / 4 % 2 = 0 → (is_data_ready bus data).2.1 = data) := by
  rcases Nat.mod_two_eq_zero_or_one (bus ALS_STATUS % 256 / 4) with h2 | h2 <;>
    rcases Nat.mod_two_eq_zero_or_one (bus ALS_STATUS % 256 / 128) with h7 | h7 <;>
      simp [is_data_ready, busRead, StatusRegister.decode, bitOf, h2, h7]

/-- Witness for C3 at the concrete status byte 0x84 (new_data = 1,
data_invalid = 1, reported gain bits = 0): the verdict is BAD_DATA. -/
theorem C3_is_data_ready_cases_witness :
    (is_data_ready (fun _ => 0x84) Readings.init).1 = DataAvail.BAD_DATA :=
  (C3_is_data_ready_cases (fun _ => 0x84) Readings.init).2.1.mpr (by decide)

/-- Claim C5: the bus addresses of the register model are exactly control
0x80, measurement rate 0x85, part ID 0x86, manufacturer ID 0x87, the four
channel-data bytes 0x88-0x8B and status 0x8C, and every bus access of the
device-control operations (reset/activate, gain and integration-time
configuration, identity check, status poll, channel read) stays within
this set. -/
theorem C5_fixed_register_addresses :
    commandAddresses = [0x80, 0x85, 0x86, 0x87, 0x88, 0x89, 0x8A, 0x8B, 0x8C] ∧
    (reset_and_activate_trace.all (fun a => commandAddresses.contains a)) = true ∧
    (configure_gain_trace.all (fun a => commandAddresses.contains a)) = true ∧
    (configure_integration_time_trace.all (fun a => commandAddresses.contains a)) = true ∧
    (identity_check_trace.all (fun a => commandAddresses.contains a)) = true ∧
    (∀ (bus : Nat → Nat) (data : Readings),
      ((is_data_ready bus data).2.2.all (fun a => commandAddresses.contains a)) = true) ∧
    (∀ (bus : Nat → Nat) (g : Gain) (data : Readings),
      ((read_sensor_data bus g data).2.all (fun a => commandAddresses.contains a)) = true) := by
  refine ⟨rfl, by decide, by decide, by decide, by decide, ?_, ?_⟩
  · intro bus data
    have ht : (is_data_ready bus data).2.2 = [ALS_STATUS] := by
      rcases Nat.mod_two_eq_zero_or_one (bus ALS_STATUS % 256 / 4) with h2 | h2 <;>
        rcases Nat.mod_two_eq_zero_or_one (bus ALS_STATUS % 256 / 128) with h7 | h7 <;>
          simp [is_data_ready, busRead, StatusRegister.decode, bitOf, h2, h7]
    rw [ht]; decide
  · intro bus g data
    have ht : (read_sensor_data bus g data).2 = [CH1_0, CH1_1, CH0_0, CH0_1] := rfl
    rw [ht]; decide

/-- Witness for C5 at a concrete bus: the status-poll and channel-read
traces stay within the fixed address set. -/
theorem C5_fixed_register_addresses_witness :
    ((is_data_ready (fun _ => 0) Readings.init).2.2.all
      (fun a => commandAddresses.contains a)) = true ∧
    ((read_sensor_data (fun _ => 0) GAIN_1 Readings.init).2.all
      (fun a => commandAddresses.contains a)) = true :=
  ⟨C5_fixed_register_addresses.2.2.2.2.2.1 (fun _ => 0) Readings.init,
    C5_fixed_register_addresses.2.2.2.2.2.2 (fun _ => 0) GAIN_1 Readings.init⟩

/-- Claim C6: read_sensor_data reads each 16-bit channel as two sequential
single-byte reads, low byte first (access trace 0x88, 0x89, 0x8A, 0x8B),
combines them little-endian, stores the infrared-only channel read from
0x88/0x89 into ch1 and the visible+infrared channel read from 0x8A/0x8B
into ch0, and stamps actual_gain from the status read. -/
theorem C6_read_sensor_data_little_endian (bus : Nat → Nat) (g : Gain) (data : Readings) :
    (read_sensor_data bus g data).2 = [CH1_0, CH1_1, CH0_0, CH0_1] ∧
    CH1_0 = 0x88 ∧ CH1_1 = 0x89 ∧ CH0_0 = 0x8A ∧ CH0_1 = 0x8B ∧
    (read_sensor_data bus g data).1.ch1 = bus CH1_0 % 256 + 256 * (bus CH1_1 % 256) ∧
    (read_sensor_data bus g data).1.ch0 = bus CH0_0 % 256 + 256 * (bus CH0_1 % 256) ∧
    (read_sensor_data bus g data).1.actual_gain = g ∧
    (read_sensor_data bus g data).1.integration_time = data.integration_time ∧
    (read_sensor_data bus g data).1.lux = data.lux :=
  ⟨rfl, rfl, rfl, rfl, rfl, rfl, rfl, rfl, rfl, rfl⟩

/-- Witness for C6 at a concrete bus holding 0x12 at 0x88, 0x34 at 0x89,
0x56 at 0x8A, 0x78 at 0x8B: ch1 = 0x3412 and ch0 = 0x7856. -/
theorem C6_read_sensor_data_little_endian_witness :
    (read_sensor_data
        (fun a => if a = 0x88 then 0x12 else if a = 0x89 then 0x34
          else if a = 0x8A then 0x56 else 0x78)
        GAIN_1 Readings.init).1.ch1 = 0x3412 := by
  have h := C6_read_sensor_data_little_endian
    (fun a => if a = 0x88 then 0x12 else if a = 0x89 then 0x34
      else if a = 0x8A then 0x56 else 0x78) GAIN_1 Readings.init
  rw [h.2.2.2.2.2.1]; decide

/-- Claim C7: for every readings record with valid gain and
integration-time enumerants and every positive glass attenuation factor,
apply_lux_calculation produces a non-negative value (any intermediate
negative result of the piecewise formula is clamped to 0), and produces
exactly 0 when ch0 = 0 and ch1 = 0; this holds for every coefficient
table. -/
theorem C7_lux_nonneg_and_zero (C : LuxCoeffs) (gaf : ℚ) (data : Readings)
    (hgain : isDefinedGain data.actual_gain = true)
    (htime : isDefinedTime data.integration_time = true)
    (hgaf : 0 < gaf) :
    0 ≤ apply_lux_calculation C gaf data ∧
    (data.ch0 = 0 ∧ data.ch1 = 0 → apply_lux_calculation C gaf data = 0) := by
  constructor
  · unfold apply_lux_calculation
    split
    · exact le_refl 0
    · dsimp only
      split
      · exact le_refl 0
      · exact mul_nonneg hgaf.le (le_max_left 0 _)
  · intro h
    simp [apply_lux_calculation, h.1, h.2]

/-- Witness for C7 at a one-bucket coefficient table, attenuation 1 and
the default readings record (ch0 = ch1 = 0, GAIN_1, 100 ms). -/
theorem C7_lux_nonneg_and_zero_witness :
    isDefinedGain Readings.init.actual_gain = true ∧
    isDefinedTime Readings.init.integration_time = true ∧
    (0 : ℚ) < 1 ∧
    (0 ≤ apply_lux_calculation ⟨9/10, [(45/100, 2, 1)]⟩ 1 Readings.init ∧
      (Readings.init.ch0 = 0 ∧ Readings.init.ch1 = 0 →
        apply_lux_calculation ⟨9/10, [(45/100, 2, 1)]⟩ 1 Readings.init = 0)) :=
  ⟨by decide, by decide, by norm_num,
    C7_lux_nonneg_and_zero ⟨9/10, [(45/100, 2, 1)]⟩ 1 Readings.init
      (by decide) (by decide) (by norm_num)⟩

/-- Claim C8: provided the low-count threshold is below the
near-saturation threshold, a single call to are_adjustments_required
changes at most one of the two settings gain and integration time (never
both), and reports no adjustment once the settings are already at the
extreme that still produces saturation or under-range: maximum gain and
maximum integration time under a low-count reading, or minimum gain and
minimum integration time under a near-saturated reading. -/
theorem C8_adjustment_one_setting (auto : Bool) (low high : Nat) (data : Readings)
    (hlh : low < high) :
    ((are_adjustments_required auto low high data).2.1 = data.actual_gain ∨
      (are_adjustments_required auto low high data).2.2 = data.integration_time) ∧
    (data.ch0 < low ∧ data.ch1 < low ∧ data.actual_gain = GAIN_96 ∧
        data.integration_time = INTEGRATION_TIME_400MS →
      (are_adjustments_required auto low high data).1 = false) ∧
    ((high ≤ data.ch0 ∨ high ≤ data.ch1) ∧ data.actual_gain = GAIN_1 ∧
        data.integration_time = INTEGRATION_TIME_50MS →
      (are_adjustments_required auto low high data).1 = false) := by
  refine ⟨?_, ?_, ?_⟩
  · unfold are_adjustments_required
    split_ifs <;> simp
  · rintro ⟨hc0, hc1, hg, ht⟩
    cases auto <;> simp [are_adjustments_required, hc0, hc1, hg, ht]
  · rintro ⟨hch, hg, ht⟩
    have hnl : ¬(data.ch0 < low ∧ data.ch1 < low) := by
      rcases hch with h | h <;> omega
    rcases hch with h | h <;> cases auto <;>
      simp [are_adjustments_required, hnl, h, hg, ht]

/-- A readings record with both settings at the under-range extreme:
maximum gain and maximum integration time, with dark channels. -/
def readingsMaxed : Readings :=
  { ch0 := 0, ch1 := 0, actual_gain := GAIN_96,
    integration_time := INTEGRATION_TIME_400MS, lux := 0 }

/-- Witness for C8 at thresholds 100 < 25000 and a dark reading already at
maximum gain and maximum integration time: no adjustment is requested. -/
theorem C8_adjustment_one_setting_witness :
    (100 : Nat) < 25000 ∧
    (are_adjustments_required true 100 25000 readingsMaxed).1 = false :=
  ⟨by decide,
    (C8_adjustment_one_setting true 100 25000 readingsMaxed (by decide)).2.1
      ⟨by decide, by decide, rfl, rfl⟩⟩

end Ltr303
